import Mathlib

set_option maxRecDepth 10000

/-!
Verification development for the single-instance coordination and
shell-environment discovery code of `kitty/utils.py`.

Part 1 embeds `read_shell_environment` (utils.py lines 858-911): the
parsing of the captured shell output, the per-process memoization, and the
failure paths.  Machine integers do not occur here; the captured output is
modelled as an already-decoded string (the source decodes with
`errors='replace'`, which never fails).
-/

/-- Translate `\r\n` and `\r` line breaks to `\n`, so that the line
splitter below only has to deal with `\n`.  Together with `splitAuxNL`
this models Python `str.splitlines` (used at utils.py:905) restricted to
the line breaks `\n`, `\r\n` and `\r`. -/
def normNewlines : List Char → List Char
  | [] => []
  | '\r' :: '\n' :: rest => '\n' :: normNewlines rest
  | '\r' :: rest => '\n' :: normNewlines rest
  | c :: rest => c :: normNewlines rest

/-- Split a character list at `\n`, with Python `splitlines` end
behaviour: no trailing empty line, and `[]` for the empty string. -/
def splitAuxNL : List Char → List Char → List String
  | [], [] => []
  | [], acc => [String.mk acc.reverse]
  | '\n' :: rest, _acc :: _more => String.mk (_acc :: _more).reverse :: splitAuxNL rest []
  | '\n' :: rest, [] => "" :: splitAuxNL rest []
  | c :: rest, acc => splitAuxNL rest (c :: acc)

/-- Python `draw.splitlines()` at utils.py:905. -/
def pySplitlines (s : String) : List String :=
  splitAuxNL (normNewlines s.data) []

/-- Helper for `pyPartitionEq`: scan for the first `=`. -/
def partitionEqAux : List Char → List Char → String × String
  | [], acc => (String.mk acc.reverse, "")
  | '=' :: rest, acc => (String.mk acc.reverse, String.mk rest)
  | c :: rest, acc => partitionEqAux rest (c :: acc)

/-- Python `line.partition('=')[::2]` at utils.py:906: the part before the
first `=` and the part after it; when there is no `=` the second component
is the empty string. -/
def pyPartitionEq (line : String) : String × String :=
  partitionEqAux line.data []

/-- Python dict assignment `ans[k] = v` on an association list with unique
keys: replace the value at an existing key in place, otherwise append the
new entry at the end (insertion order preserved, as for a Python dict). -/
def dictInsert : List (String × String) → String → String → List (String × String)
  | [], k, v => [(k, v)]
  | (k', v') :: rest, k, v =>
    if k' = k then (k, v) :: rest else (k', v') :: dictInsert rest k v

/-- Python dict lookup `ans.get(key)` on the association list. -/
def lookupAssoc : List (String × String) → String → Option String
  | [], _ => none
  | (k, v) :: rest, key => if k = key then some v else lookupAssoc rest key

/-- One iteration of the parsing loop at utils.py:905-908:
`k, v = line.partition('=')[::2]; if k and v: ans[k] = v`. -/
def envStep (m : List (String × String)) (line : String) : List (String × String) :=
  let p := pyPartitionEq line
  if p.1 ≠ "" ∧ p.2 ≠ "" then dictInsert m p.1 p.2 else m

/-- The key/value pairs of the lines of `raw` that the loop at
utils.py:905-908 retains: non-empty part before the first `=` and
non-empty part after it, in line order. -/
def validPairs (raw : String) : List (String × String) :=
  (pySplitlines raw).filterMap fun line =>
    let p := pyPartitionEq line
    if p.1 ≠ "" ∧ p.2 ≠ "" then some p else none

/-- The mapping built by the loop at utils.py:905-908 from the captured,
decoded output. -/
def parseShellEnv (raw : String) : List (String × String) :=
  (pySplitlines raw).foldl envStep []

/-- Value of the last entry of `ps` with key `key` (later entries take
priority), matching Python dict override semantics for duplicate keys. -/
def lastVal : List (String × String) → String → Option String
  | [], _ => none
  | p :: rest, key =>
    match lastVal rest key with
    | some v => some v
    | none => if p.1 = key then some p.2 else none

/-- Outcome of the shell subprocess launched at utils.py:873-875, as seen
by `read_shell_environment`: the launch raises FileNotFoundError, the
child is still running when the 1.5 s deadline expires, or the child
exited with a status code having produced the given (decoded) output. -/
inductive ShellOutcome where
  | notFound
  | timeout
  | exited (code : Int) (out : String)
deriving DecidableEq

/-- Observable result of one (non-memoized) run of the body of
`read_shell_environment`: the mapping handed to the caller, the diagnostic
messages passed to `log_error`, and whether the child was killed. -/
structure ShellResult where
  env : List (String × String)
  log : List String
  killed : Bool
deriving DecidableEq

/-- Body of `read_shell_environment` (utils.py:864-910) as a function of
the subprocess outcome: FileNotFoundError logs and returns the empty
mapping (utils.py:876-878); a timeout logs and kills the child
(utils.py:892-894); a non-zero exit logs (utils.py:909-910); a zero exit
parses the captured output (utils.py:895-908). -/
def runShellRead : ShellOutcome → ShellResult
  | .notFound => ⟨[], ["Could not find shell to read environment"], false⟩
  | .timeout => ⟨[], ["Timed out waiting for shell to quit while reading shell environment"], true⟩
  | .exited code out =>
    if code = 0 then ⟨parseShellEnv out, [], false⟩
    else ⟨[], ["Failed to run shell to read its environment"], false⟩

/-- Per-process memoization state of `read_shell_environment`: the
function attribute `read_shell_environment.ans` (`none` when the attribute
is not yet set, utils.py:859) and the number of subprocess launch attempts
made so far. -/
structure RSEState where
  cache : Option (List (String × String))
  launches : Nat
deriving DecidableEq

/-- `read_shell_environment` (utils.py:858-911) as a state transformer:
if the `ans` attribute is set it is returned unchanged (utils.py:859-860,
the sentinel is `None`, not emptiness); otherwise the subprocess runs
once, its result is stored in the attribute and returned.  The source
stores the (mutable) dict in the attribute before filling it; the net
effect for all later callers is that the final mapping is cached. -/
def read_shell_environment (o : ShellOutcome) (st : RSEState) :
    List (String × String) × RSEState :=
  match st.cache with
  | some ans => (ans, st)
  | none =>
    let r := runShellRead o
    (r.env, ⟨some r.env, st.launches + 1⟩)

/-- The pairs of the lines of `lines` that the parsing loop retains. -/
def validOf (lines : List String) : List (String × String) :=
  lines.filterMap fun line =>
    let p := pyPartitionEq line
    if p.1 ≠ "" ∧ p.2 ≠ "" then some p else none

/-!
Part 2 embeds the naming and path computations of the single-instance
coordinator: `SingleInstance.__call__` (utils.py:470-478, the canonical
name and the abstract address), `unix_socket_paths` (utils.py:402-406)
and the socket-path derivation of `single_instance_unix` (utils.py:437).
-/

/-- Python truthiness of an `Optional[str]`: `None` and the empty string
are falsy.  This is the test `if group_id:` at utils.py:473. -/
def pyTruthyStr : Option String → Bool
  | none => false
  | some s => !s.isEmpty

/-- Canonical coordination name computed at utils.py:472-474:
`name = f'{appname}-ipc-{os.geteuid()}'` followed by
`if group_id: name += f'-{group_id}'`. -/
def instanceName (app : String) (euid : Nat) (gid : Option String) : String :=
  let name := app ++ "-ipc-" ++ toString euid
  if pyTruthyStr gid then name ++ "-" ++ gid.getD "" else name

/-- Abstract socket address `addr = '\0' + name` at utils.py:478. -/
def abstractAddr (name : String) : String :=
  String.mk ('\x00' :: name.data)

/-- Whether a path is absolute (`os.path.join` discards everything before
an absolute second component). -/
def isAbs (s : String) : Bool :=
  match s.data with
  | [] => false
  | c :: _ => c = '/'

/-- Whether a path ends with a slash. -/
def endsSlash (s : String) : Bool :=
  match s.data.getLast? with
  | some '/' => true
  | _ => false

/-- POSIX `os.path.join(a, b)` for one component, used at utils.py:406. -/
def pathJoin (a b : String) : String :=
  if isAbs b then b
  else if a = "" then b
  else if endsSlash a then a ++ b
  else a ++ "/" ++ b

/-- Filename computed at utils.py:405:
`('.' if loc == home else '') + name + ext`. -/
def socketFilename (home loc name ext : String) : String :=
  (if loc = home then "." else "") ++ name ++ ext

/-- `unix_socket_paths` (utils.py:402-406): one path per accessible
candidate directory, the filename carrying a leading dot exactly for the
home directory.  The accessible directories (`unix_socket_directories`,
utils.py:390-399) are passed in as a list. -/
def unix_socket_paths (home : String) (dirs : List String) (name ext : String) :
    List String :=
  dirs.map fun loc => pathJoin loc (socketFilename home loc name ext)

/-- Everything strictly before the last occurrence of `c`, i.e. Python
`path.rpartition(c)[0]`; the empty string when `c` does not occur. -/
def rpartBefore (c : Char) (l : List Char) : List Char :=
  match l.reverse.dropWhile (fun x => x ≠ c) with
  | [] => []
  | _ :: rest => rest.reverse

/-- Sibling socket path computed at utils.py:437:
`socket_path = path.rpartition('.')[0] + '.sock'`. -/
def socketPathOf (path : String) : String :=
  String.mk (rpartBefore '.' path.data) ++ ".sock"

/-!
Part 3 embeds the single-instance coordination protocol:
`SingleInstance.__call__` (utils.py:470-493) and `single_instance_unix`
(utils.py:434-463), as a small-step machine.  Each step of a process is
one system call of the source; the shared `OSState` records the kernel
facts those calls read and write (abstract-namespace address table,
lockfile, advisory lock, filesystem socket).  A process is identified by
a `Bool`.  Error numbers are the symbolic constants the source tests.
-/

inductive Errno where
  | eagain
  | eacces
  | eaddrinuse
  | eexist
  | enoent
  | econnrefused
  | eperm
deriving DecidableEq

/-- Program counter of one process running `SingleInstance.__call__`.
`start` is about to try the abstract bind (utils.py:480); `absListen` has
bound the abstract address and is about to listen/retain/register
(utils.py:489-492); `absConnect` got EADDRINUSE and is about to connect
(utils.py:485); the `fs*` states are the body of `single_instance_unix`;
the terminal states are returning True (`server`), returning False with a
connected socket (`client`), returning False because no candidate
directory was accessible (`clientNone`, utils.py:463), or an OSError
propagating to the caller (`err`). -/
inductive PC where
  | start
  | absListen
  | absConnect
  | fsStart
  | fsLock
  | fsConnect
  | fsBind
  | fsUnlink
  | fsRebind
  | fsListen
  | server
  | client
  | clientNone
  | err (e : Errno)
deriving DecidableEq

/-- Process-local observable state: the program counter, whether the
process-wide socket attribute (`self.socket` / `single_instance.socket`)
has been set, and whether an atexit cleanup has been registered. -/
structure ProcState where
  pc : PC
  socketSet : Bool
  atexitReg : Bool
deriving DecidableEq

/-- Shared kernel state for one coordination name.  `absSupported` is the
platform property (binding a NUL-prefixed address raises ENOENT where the
abstract namespace is unsupported, utils.py:482); `absBindFault` and
`fsBindFault` inject an arbitrary other bind errno, modelling the
unexpected-OS-failure cases.  `lockFile` is the lockfile content length
(`none` when the file does not exist); `lockHeld` the holder of the
advisory lock; `sockFileExists`/`sockBound`/`sockListening` describe the
filesystem socket path. -/
structure OSState where
  absSupported : Bool
  absBound : Bool
  absListening : Bool
  absBindFault : Option Errno
  dirsAccessible : Bool
  lockFile : Option Nat
  lockHeld : Option Bool
  sockFileExists : Bool
  sockBound : Bool
  sockListening : Bool
  fsBindFault : Option Errno
deriving DecidableEq

/-- One atomic step of process `p`.  Each case is one system call of
`SingleInstance.__call__` / `single_instance_unix` with the source's
handling of its outcome:

* `start` — `s.bind('\0' + name)` (utils.py:480): ENOENT falls through to
  `single_instance_unix` (utils.py:482-483), EADDRINUSE proceeds to
  connect (utils.py:484), success proceeds to listen, anything else
  re-raises (utils.py:488).
* `absListen` — `s.listen(); self.socket = s; atexit.register(...)`
  (utils.py:489-492), then return True.
* `absConnect` — `s.connect(addr); self.socket = s` then return False
  (utils.py:485-487); connecting to an address nobody listens on raises
  ECONNREFUSED, which the source does not handle.
* `fsStart` — the `for path in unix_socket_paths(name)` header plus
  `os.open(path, O_CREAT | O_WRONLY | O_TRUNC | O_CLOEXEC)`
  (utils.py:436-438): with no accessible directory the loop body never
  runs and the function returns False (utils.py:463); otherwise the open
  creates the lockfile if absent and truncates it to length 0.
* `fsLock` — `fcntl.lockf(fd, LOCK_EX | LOCK_NB)` (utils.py:440): free
  (or held by the same process) acquires, held by the other process
  raises EAGAIN which the source maps to the client path (utils.py:442).
* `fsConnect` — `s.connect(socket_path); single_instance.socket = s` then
  return False (utils.py:444-447); ENOENT when the path is missing,
  ECONNREFUSED when nobody listens — both unhandled.
* `fsBind` — `s.bind(socket_path)` (utils.py:451): binding an AF_UNIX
  socket to an existing path fails EADDRINUSE; EADDRINUSE/EEXIST go to
  the unlink-and-retry path (utils.py:453-455), others re-raise
  (utils.py:457).
* `fsUnlink` — `os.unlink(socket_path)` (utils.py:454): ENOENT if the
  path is missing (unhandled).
* `fsRebind` — the second `s.bind(socket_path)` (utils.py:455), outside
  any handler: any failure propagates.
* `fsListen` — `single_instance.socket = s; atexit.register(...);
  s.listen()` then return True (utils.py:458-462). -/
def step (p : Bool) (os : OSState) (ps : ProcState) : OSState × ProcState :=
  match ps.pc with
  | .start =>
    match os.absBindFault with
    | some e =>
      if e = .enoent then (os, { ps with pc := .fsStart })
      else if e = .eaddrinuse then (os, { ps with pc := .absConnect })
      else (os, { ps with pc := .err e })
    | none =>
      if os.absSupported then
        if os.absBound then (os, { ps with pc := .absConnect })
        else ({ os with absBound := true }, { ps with pc := .absListen })
      else (os, { ps with pc := .fsStart })
  | .absListen =>
    ({ os with absListening := true },
      { ps with pc := .server, socketSet := true, atexitReg := true })
  | .absConnect =>
    if os.absBound ∧ os.absListening then
      (os, { ps with pc := .client, socketSet := true })
    else (os, { ps with pc := .err .econnrefused })
  | .fsStart =>
    if os.dirsAccessible then
      ({ os with lockFile := some 0 }, { ps with pc := .fsLock })
    else (os, { ps with pc := .clientNone })
  | .fsLock =>
    match os.lockHeld with
    | none => ({ os with lockHeld := some p }, { ps with pc := .fsBind })
    | some q =>
      if q = p then (os, { ps with pc := .fsBind })
      else (os, { ps with pc := .fsConnect })
  | .fsConnect =>
    if os.sockBound ∧ os.sockListening then
      (os, { ps with pc := .client, socketSet := true })
    else if os.sockFileExists then (os, { ps with pc := .err .econnrefused })
    else (os, { ps with pc := .err .enoent })
  | .fsBind =>
    match os.fsBindFault with
    | some e =>
      if e = .eaddrinuse ∨ e = .eexist then (os, { ps with pc := .fsUnlink })
      else (os, { ps with pc := .err e })
    | none =>
      if os.sockFileExists then (os, { ps with pc := .fsUnlink })
      else ({ os with sockFileExists := true, sockBound := true },
        { ps with pc := .fsListen })
  | .fsUnlink =>
    if os.sockFileExists then
      ({ os with sockFileExists := false, sockBound := false, sockListening := false },
        { ps with pc := .fsRebind })
    else (os, { ps with pc := .err .enoent })
  | .fsRebind =>
    match os.fsBindFault with
    | some e => (os, { ps with pc := .err e })
    | none =>
      if os.sockFileExists then (os, { ps with pc := .err .eaddrinuse })
      else ({ os with sockFileExists := true, sockBound := true },
        { ps with pc := .fsListen })
  | .fsListen =>
    ({ os with sockListening := true },
      { ps with pc := .server, socketSet := true, atexitReg := true })
  | .server => (os, ps)
  | .client => (os, ps)
  | .clientNone => (os, ps)
  | .err _ => (os, ps)

/-- Run `n` steps of a single process. -/
def runSteps (p : Bool) : Nat → OSState × ProcState → OSState × ProcState
  | 0, s => s
  | n + 1, (os, ps) => runSteps p n (step p os ps)

/-- A full call of `single_instance(...)` by one process: run from
`start` to a terminal state (the longest path of the machine has seven
steps; terminal states are fixed points, so twelve steps suffice). -/
def runCall (os : OSState) : OSState × ProcState :=
  runSteps false 12 (os, ⟨.start, false, false⟩)

/-- Joint state of two processes racing on the same name. -/
structure Config where
  os : OSState
  p1 : ProcState
  p2 : ProcState
deriving DecidableEq

/-- One scheduler move: `false` lets process 1 step, `true` process 2. -/
def stepConfig (c : Config) (m : Bool) : Config :=
  if m then
    let r := step true c.os c.p2
    ⟨r.1, c.p1, r.2⟩
  else
    let r := step false c.os c.p1
    ⟨r.1, ⟨r.2.pc, r.2.socketSet, r.2.atexitReg⟩, c.p2⟩

/-- Run a schedule (a list of scheduler moves). -/
def runSched (c : Config) : List Bool → Config
  | [] => c
  | m :: ms => runSched (stepConfig c m) ms

/-- Fresh kernel state for a name never used before, on a platform with
or without abstract-namespace support and with at least one accessible
candidate directory. -/
def cleanOS (absSup : Bool) : OSState :=
  ⟨absSup, false, false, none, true, none, none, false, false, false, none⟩

/-- Both processes about to enter `SingleInstance.__call__`. -/
def initConfig (absSup : Bool) : Config :=
  ⟨cleanOS absSup, ⟨.start, false, false⟩, ⟨.start, false, false⟩⟩

/-- Whether a terminal program counter is a Client-role return
(`__call__` returning False). -/
def clientRole : PC → Bool
  | .client => true
  | .clientNone => true
  | _ => false

/-- Whether a program counter is a normal (non-raising) return. -/
def doneOK : PC → Bool
  | .server => true
  | .client => true
  | .clientNone => true
  | _ => false

/-- The set of joint states reachable from `initConfig true` and
`initConfig false` under every interleaving of the two processes
(computed by exhausting the step relation; closure and initial membership
are proved below). -/
def reachable : List Config := [
  ⟨⟨false, false, false, (none), true, (none), (none), false, false, false, (none)⟩, ⟨(.start), false, false⟩, ⟨(.start), false, false⟩⟩,
  ⟨⟨false, false, false, (none), true, (none), (none), false, false, false, (none)⟩, ⟨(.fsStart), false, false⟩, ⟨(.start), false, false⟩⟩,
  ⟨⟨false, false, false, (none), true, (some 0), (none), false, false, false, (none)⟩, ⟨(.fsLock), false, false⟩, ⟨(.start), false, false⟩⟩,
  ⟨⟨false, false, false, (none), true, (some 0), (some false), false, false, false, (none)⟩, ⟨(.fsBind), false, false⟩, ⟨(.start), false, false⟩⟩,
  ⟨⟨false, false, false, (none), true, (some 0), (some false), true, true, false, (none)⟩, ⟨(.fsListen), false, false⟩, ⟨(.start), false, false⟩⟩,
  ⟨⟨false, false, false, (none), true, (some 0), (some false), true, true, true, (none)⟩, ⟨(.server), true, true⟩, ⟨(.start), false, false⟩⟩,
  ⟨⟨false, false, false, (none), true, (none), (none), false, false, false, (none)⟩, ⟨(.start), false, false⟩, ⟨(.fsStart), false, false⟩⟩,
  ⟨⟨false, false, false, (none), true, (none), (none), false, false, false, (none)⟩, ⟨(.fsStart), false, false⟩, ⟨(.fsStart), false, false⟩⟩,
  ⟨⟨false, false, false, (none), true, (some 0), (none), false, false, false, (none)⟩, ⟨(.fsLock), false, false⟩, ⟨(.fsStart), false, false⟩⟩,
  ⟨⟨false, false, false, (none), true, (some 0), (some false), false, false, false, (none)⟩, ⟨(.fsBind), false, false⟩, ⟨(.fsStart), false, false⟩⟩,
  ⟨⟨false, false, false, (none), true, (some 0), (some false), true, true, false, (none)⟩, ⟨(.fsListen), false, false⟩, ⟨(.fsStart), false, false⟩⟩,
  ⟨⟨false, false, false, (none), true, (some 0), (some false), true, true, true, (none)⟩, ⟨(.server), true, true⟩, ⟨(.fsStart), false, false⟩⟩,
  ⟨⟨false, false, false, (none), true, (some 0), (none), false, false, false, (none)⟩, ⟨(.start), false, false⟩, ⟨(.fsLock), false, false⟩⟩,
  ⟨⟨false, false, false, (none), true, (some 0), (none), false, false, false, (none)⟩, ⟨(.fsStart), false, false⟩, ⟨(.fsLock), false, false⟩⟩,
  ⟨⟨false, false, false, (none), true, (some 0), (none), false, false, false, (none)⟩, ⟨(.fsLock), false, false⟩, ⟨(.fsLock), false, false⟩⟩,
  ⟨⟨false, false, false, (none), true, (some 0), (some false), false, false, false, (none)⟩, ⟨(.fsBind), false, false⟩, ⟨(.fsLock), false, false⟩⟩,
  ⟨⟨false, false, false, (none), true, (some 0), (some false), true, true, false, (none)⟩, ⟨(.fsListen), false, false⟩, ⟨(.fsLock), false, false⟩⟩,
  ⟨⟨false, false, false, (none), true, (some 0), (some false), true, true, true, (none)⟩, ⟨(.server), true, true⟩, ⟨(.fsLock), false, false⟩⟩,
  ⟨⟨false, false, false, (none), true, (some 0), (some false), false, false, false, (none)⟩, ⟨(.fsBind), false, false⟩, ⟨(.fsConnect), false, false⟩⟩,
  ⟨⟨false, false, false, (none), true, (some 0), (some false), true, true, false, (none)⟩, ⟨(.fsListen), false, false⟩, ⟨(.fsConnect), false, false⟩⟩,
  ⟨⟨false, false, false, (none), true, (some 0), (some false), true, true, true, (none)⟩, ⟨(.server), true, true⟩, ⟨(.fsConnect), false, false⟩⟩,
  ⟨⟨false, false, false, (none), true, (some 0), (some false), true, true, true, (none)⟩, ⟨(.server), true, true⟩, ⟨(.client), true, false⟩⟩,
  ⟨⟨false, false, false, (none), true, (some 0), (some false), true, true, true, (none)⟩, ⟨(.server), true, true⟩, ⟨(.err .econnrefused), false, false⟩⟩,
  ⟨⟨false, false, false, (none), true, (some 0), (some false), true, true, false, (none)⟩, ⟨(.fsListen), false, false⟩, ⟨(.err .econnrefused), false, false⟩⟩,
  ⟨⟨false, false, false, (none), true, (some 0), (some false), true, true, true, (none)⟩, ⟨(.server), true, true⟩, ⟨(.err .enoent), false, false⟩⟩,
  ⟨⟨false, false, false, (none), true, (some 0), (some false), true, true, false, (none)⟩, ⟨(.fsListen), false, false⟩, ⟨(.err .enoent), false, false⟩⟩,
  ⟨⟨false, false, false, (none), true, (some 0), (some false), false, false, false, (none)⟩, ⟨(.fsBind), false, false⟩, ⟨(.err .enoent), false, false⟩⟩,
  ⟨⟨false, false, false, (none), true, (some 0), (some true), false, false, false, (none)⟩, ⟨(.start), false, false⟩, ⟨(.fsBind), false, false⟩⟩,
  ⟨⟨false, false, false, (none), true, (some 0), (some true), false, false, false, (none)⟩, ⟨(.fsStart), false, false⟩, ⟨(.fsBind), false, false⟩⟩,
  ⟨⟨false, false, false, (none), true, (some 0), (some true), false, false, false, (none)⟩, ⟨(.fsLock), false, false⟩, ⟨(.fsBind), false, false⟩⟩,
  ⟨⟨false, false, false, (none), true, (some 0), (some true), false, false, false, (none)⟩, ⟨(.fsConnect), false, false⟩, ⟨(.fsBind), false, false⟩⟩,
  ⟨⟨false, false, false, (none), true, (some 0), (some true), false, false, false, (none)⟩, ⟨(.err .enoent), false, false⟩, ⟨(.fsBind), false, false⟩⟩,
  ⟨⟨false, false, false, (none), true, (some 0), (some true), true, true, false, (none)⟩, ⟨(.err .enoent), false, false⟩, ⟨(.fsListen), false, false⟩⟩,
  ⟨⟨false, false, false, (none), true, (some 0), (some true), true, true, true, (none)⟩, ⟨(.err .enoent), false, false⟩, ⟨(.server), true, true⟩⟩,
  ⟨⟨false, false, false, (none), true, (some 0), (some true), true, true, false, (none)⟩, ⟨(.start), false, false⟩, ⟨(.fsListen), false, false⟩⟩,
  ⟨⟨false, false, false, (none), true, (some 0), (some true), true, true, false, (none)⟩, ⟨(.fsStart), false, false⟩, ⟨(.fsListen), false, false⟩⟩,
  ⟨⟨false, false, false, (none), true, (some 0), (some true), true, true, false, (none)⟩, ⟨(.fsLock), false, false⟩, ⟨(.fsListen), false, false⟩⟩,
  ⟨⟨false, false, false, (none), true, (some 0), (some true), true, true, false, (none)⟩, ⟨(.fsConnect), false, false⟩, ⟨(.fsListen), false, false⟩⟩,
  ⟨⟨false, false, false, (none), true, (some 0), (some true), true, true, false, (none)⟩, ⟨(.err .econnrefused), false, false⟩, ⟨(.fsListen), false, false⟩⟩,
  ⟨⟨false, false, false, (none), true, (some 0), (some true), true, true, true, (none)⟩, ⟨(.err .econnrefused), false, false⟩, ⟨(.server), true, true⟩⟩,
  ⟨⟨false, false, false, (none), true, (some 0), (some true), true, true, true, (none)⟩, ⟨(.client), true, false⟩, ⟨(.server), true, true⟩⟩,
  ⟨⟨false, false, false, (none), true, (some 0), (some true), true, true, true, (none)⟩, ⟨(.fsConnect), false, false⟩, ⟨(.server), true, true⟩⟩,
  ⟨⟨false, false, false, (none), true, (some 0), (some true), true, true, true, (none)⟩, ⟨(.fsLock), false, false⟩, ⟨(.server), true, true⟩⟩,
  ⟨⟨false, false, false, (none), true, (some 0), (some true), true, true, true, (none)⟩, ⟨(.fsStart), false, false⟩, ⟨(.server), true, true⟩⟩,
  ⟨⟨false, false, false, (none), true, (some 0), (some true), true, true, true, (none)⟩, ⟨(.start), false, false⟩, ⟨(.server), true, true⟩⟩,
  ⟨⟨true, false, false, (none), true, (none), (none), false, false, false, (none)⟩, ⟨(.start), false, false⟩, ⟨(.start), false, false⟩⟩,
  ⟨⟨true, true, false, (none), true, (none), (none), false, false, false, (none)⟩, ⟨(.absListen), false, false⟩, ⟨(.start), false, false⟩⟩,
  ⟨⟨true, true, true, (none), true, (none), (none), false, false, false, (none)⟩, ⟨(.server), true, true⟩, ⟨(.start), false, false⟩⟩,
  ⟨⟨true, true, false, (none), true, (none), (none), false, false, false, (none)⟩, ⟨(.absListen), false, false⟩, ⟨(.absConnect), false, false⟩⟩,
  ⟨⟨true, true, true, (none), true, (none), (none), false, false, false, (none)⟩, ⟨(.server), true, true⟩, ⟨(.absConnect), false, false⟩⟩,
  ⟨⟨true, true, true, (none), true, (none), (none), false, false, false, (none)⟩, ⟨(.server), true, true⟩, ⟨(.client), true, false⟩⟩,
  ⟨⟨true, true, true, (none), true, (none), (none), false, false, false, (none)⟩, ⟨(.server), true, true⟩, ⟨(.err .econnrefused), false, false⟩⟩,
  ⟨⟨true, true, false, (none), true, (none), (none), false, false, false, (none)⟩, ⟨(.absListen), false, false⟩, ⟨(.err .econnrefused), false, false⟩⟩,
  ⟨⟨true, true, false, (none), true, (none), (none), false, false, false, (none)⟩, ⟨(.start), false, false⟩, ⟨(.absListen), false, false⟩⟩,
  ⟨⟨true, true, false, (none), true, (none), (none), false, false, false, (none)⟩, ⟨(.absConnect), false, false⟩, ⟨(.absListen), false, false⟩⟩,
  ⟨⟨true, true, false, (none), true, (none), (none), false, false, false, (none)⟩, ⟨(.err .econnrefused), false, false⟩, ⟨(.absListen), false, false⟩⟩,
  ⟨⟨true, true, true, (none), true, (none), (none), false, false, false, (none)⟩, ⟨(.err .econnrefused), false, false⟩, ⟨(.server), true, true⟩⟩,
  ⟨⟨true, true, true, (none), true, (none), (none), false, false, false, (none)⟩, ⟨(.client), true, false⟩, ⟨(.server), true, true⟩⟩,
  ⟨⟨true, true, true, (none), true, (none), (none), false, false, false, (none)⟩, ⟨(.absConnect), false, false⟩, ⟨(.server), true, true⟩⟩,
  ⟨⟨true, true, true, (none), true, (none), (none), false, false, false, (none)⟩, ⟨(.start), false, false⟩, ⟨(.server), true, true⟩⟩
]

/-! Lemmas about the parsing loop. -/

theorem lookupAssoc_dictInsert (m : List (String × String)) (k v key : String) :
    lookupAssoc (dictInsert m k v) key =
      if k = key then some v else lookupAssoc m key := by
  induction m with
  | nil => simp [dictInsert, lookupAssoc]
  | cons hd tl ih =>
    obtain ⟨k', v'⟩ := hd
    by_cases h1 : k' = k
    · subst h1
      by_cases h2 : k' = key <;> simp [dictInsert, lookupAssoc, h2]
    · by_cases h2 : k' = key
      · subst h2
        have : ¬ k = k' := fun h => h1 h.symm
        simp [dictInsert, lookupAssoc, h1, this]
      · simp [dictInsert, lookupAssoc, h1, h2, ih]

theorem lookupAssoc_foldl_envStep (lines : List String) :
    ∀ (m : List (String × String)) (key : String),
      lookupAssoc (lines.foldl envStep m) key =
        match lastVal (validOf lines) key with
        | some v => some v
        | none => lookupAssoc m key := by
  induction lines with
  | nil => intro m key; simp [validOf, lastVal]
  | cons l rest ih =>
    intro m key
    by_cases hv : (pyPartitionEq l).1 ≠ "" ∧ (pyPartitionEq l).2 ≠ ""
    · have hfold : (l :: rest).foldl envStep m =
          rest.foldl envStep (dictInsert m (pyPartitionEq l).1 (pyPartitionEq l).2) := by
        simp [envStep, hv]
      have hvalid : validOf (l :: rest) = pyPartitionEq l :: validOf rest := by
        simp [validOf, hv]
      rw [hfold, ih, hvalid]
      cases hrest : lastVal (validOf rest) key with
      | some v => simp [lastVal, hrest]
      | none =>
        simp only [lastVal, hrest]
        rw [lookupAssoc_dictInsert]
        by_cases hk : (pyPartitionEq l).1 = key <;> simp [hk]
    · have hfold : (l :: rest).foldl envStep m = rest.foldl envStep m := by
        simp [envStep, hv]
      have hvalid : validOf (l :: rest) = validOf rest := by
        simp [validOf, hv]
      rw [hfold, ih, hvalid]

theorem keys_dictInsert (m : List (String × String)) (k v : String) :
    (dictInsert m k v).map Prod.fst =
      if k ∈ m.map Prod.fst then m.map Prod.fst else m.map Prod.fst ++ [k] := by
  induction m with
  | nil => simp [dictInsert]
  | cons hd tl ih =>
    obtain ⟨k', v'⟩ := hd
    by_cases h1 : k' = k
    · subst h1
      simp [dictInsert]
    · have h1' : ¬ k = k' := fun h => h1 h.symm
      simp only [dictInsert, if_neg h1, List.map_cons, ih, List.mem_cons]
      by_cases h2 : k ∈ tl.map Prod.fst <;> simp [h1', h2]

theorem nodup_keys_dictInsert (m : List (String × String)) (k v : String)
    (hm : (m.map Prod.fst).Nodup) :
    ((dictInsert m k v).map Prod.fst).Nodup := by
  rw [keys_dictInsert]
  by_cases h : k ∈ m.map Prod.fst
  · simpa [h] using hm
  · simp [h, List.nodup_append, hm]

theorem nodup_keys_foldl_envStep (lines : List String) :
    ∀ (m : List (String × String)), (m.map Prod.fst).Nodup →
      ((lines.foldl envStep m).map Prod.fst).Nodup := by
  induction lines with
  | nil => intro m hm; simpa using hm
  | cons l rest ih =>
    intro m hm
    by_cases hv : (pyPartitionEq l).1 ≠ "" ∧ (pyPartitionEq l).2 ≠ ""
    · have : (l :: rest).foldl envStep m =
          rest.foldl envStep (dictInsert m (pyPartitionEq l).1 (pyPartitionEq l).2) := by
        simp [envStep, hv]
      rw [this]
      exact ih _ (nodup_keys_dictInsert m _ _ hm)
    · have : (l :: rest).foldl envStep m = rest.foldl envStep m := by
        simp [envStep, hv]
      rw [this]
      exact ih m hm

/-! Claim theorems for the shell-environment reader. -/

/-- C3 counterexample: the claim says the mapping has exactly one entry
per captured output line with non-empty key and value.  For the captured
output `A=1\nA=2` there are two such lines but the resulting mapping has a
single entry, `(A, 2)`; the entry `(A, 1)` of the first line is not
present (a Python dict keeps one entry per key, the last assignment
winning). -/
theorem c3_counterexample :
    (validPairs "A=1\nA=2").length = 2 ∧
    (parseShellEnv "A=1\nA=2").length = 1 ∧
    ("A", "1") ∉ parseShellEnv "A=1\nA=2" ∧
    runShellRead (.exited 0 "A=1\nA=2") =
      ⟨[("A", "2")], [], false⟩ := by
  decide

/-- C3 (amended): when the shell child exits with status zero, the
resulting mapping contains exactly one entry per distinct key occurring
in a captured line with a non-empty part before the first `=` and a
non-empty part after it, that entry holding the value of the last such
line; lines without `=` or with an empty key or empty value contribute
nothing.  Formally: looking up any key in the mapping yields the value of
the last retained line with that key (`none` when there is no such line),
the keys of the mapping are pairwise distinct, and for the captured
output `FOO=bar\nBAZ=\nMALFORMED\nQUX=1` the result is exactly
`{FOO: "bar", QUX: "1"}`. -/
theorem c3_parse_amended :
    (∀ (raw : String) (key : String),
        lookupAssoc ((runShellRead (.exited 0 raw)).env) key =
          lastVal (validPairs raw) key) ∧
    (∀ raw : String, (((runShellRead (.exited 0 raw)).env).map Prod.fst).Nodup) ∧
    (runShellRead (.exited 0 "FOO=bar\nBAZ=\nMALFORMED\nQUX=1")).env =
      [("FOO", "bar"), ("QUX", "1")] := by
  refine ⟨fun raw key => ?_, fun raw => ?_, by decide⟩
  · show lookupAssoc (parseShellEnv raw) key = lastVal (validPairs raw) key
    have h := lookupAssoc_foldl_envStep (pySplitlines raw) [] key
    have hvp : validOf (pySplitlines raw) = validPairs raw := rfl
    rw [parseShellEnv, h, hvp]
    cases lastVal (validPairs raw) key <;> simp [lookupAssoc]
  · show ((parseShellEnv raw).map Prod.fst).Nodup
    exact nodup_keys_foldl_envStep (pySplitlines raw) [] (by simp)

/-- C4: `read_shell_environment` is memoized per process.  Starting from
the fresh state (no `ans` attribute, no launches), the first call stores
its result in the attribute; a later call — whatever the shell would do
the second time — returns the identical cached mapping and leaves the
state untouched (in particular no further subprocess launch attempt is
made).  This also holds when the cached result is the empty mapping of a
failure path, since the cache sentinel is the absence of the attribute,
not emptiness. -/
theorem c4_memoized (o1 o2 : ShellOutcome) :
    (read_shell_environment o1 ⟨none, 0⟩).2.cache =
      some (read_shell_environment o1 ⟨none, 0⟩).1 ∧
    (read_shell_environment o1 ⟨none, 0⟩).2.launches = 1 ∧
    read_shell_environment o2 (read_shell_environment o1 ⟨none, 0⟩).2 =
      ((read_shell_environment o1 ⟨none, 0⟩).1,
        (read_shell_environment o1 ⟨none, 0⟩).2) ∧
    (read_shell_environment .timeout ⟨none, 0⟩).1 = [] ∧
    (read_shell_environment o2 (read_shell_environment .timeout ⟨none, 0⟩).2).1 = [] :=
  ⟨rfl, rfl, rfl, rfl, rfl⟩

/-- C5: every subprocess failure in the shell-environment reader — shell
executable not found, child exiting non-zero, or child timing out (in
which case it is killed) — yields the empty mapping together with a
logged diagnostic; the embedded reader is a total function, so no failure
escapes as an exception or error return. -/
theorem c5_failure_paths (c : Int) (out : String) :
    (runShellRead .notFound).env = [] ∧ (runShellRead .notFound).log ≠ [] ∧
    (runShellRead .timeout).env = [] ∧ (runShellRead .timeout).log ≠ [] ∧
    (runShellRead .timeout).killed = true ∧
    (c ≠ 0 →
      (runShellRead (.exited c out)).env = [] ∧
      (runShellRead (.exited c out)).log ≠ []) ∧
    (read_shell_environment .timeout ⟨none, 0⟩).1 = [] ∧
    (read_shell_environment .notFound ⟨none, 0⟩).1 = [] := by
  refine ⟨rfl, by simp [runShellRead], rfl, by simp [runShellRead], rfl,
    fun hc => ?_, rfl, rfl⟩
  constructor <;> simp [runShellRead, hc]

/-- C5 witness: the failure branch of `c5_failure_paths` at the concrete
exit code 1 and output `X=1`. -/
theorem c5_failure_paths_witness :
    (runShellRead (.exited 1 "X=1")).env = [] ∧
    (runShellRead (.exited 1 "X=1")).log ≠ [] :=
  (c5_failure_paths 1 "X=1").2.2.2.2.2.1 (by decide)
/-! Lemmas about the path computations. -/

theorem string_mk_data (s : String) : String.mk s.data = s := by
  cases s
  rfl

theorem dropWhile_no_dot (a r : List Char) (ha : ∀ c ∈ a, c ≠ '.') :
    List.dropWhile (fun x => x ≠ '.') (a ++ '.' :: r) = '.' :: r := by
  induction a with
  | nil => simp [List.dropWhile]
  | cons c cs ih =>
    have hc : c ≠ '.' := ha c (by simp)
    have hdec : (fun x => decide (x ≠ '.')) c = true := by simp [hc]
    rw [List.cons_append, List.dropWhile_cons, if_pos hdec]
    exact ih fun d hd => ha d (List.mem_cons_of_mem _ hd)

theorem rpartBefore_append_dot (l e : List Char) (he : ∀ c ∈ e, c ≠ '.') :
    rpartBefore '.' (l ++ '.' :: e) = l := by
  unfold rpartBefore
  have h1 : (l ++ '.' :: e).reverse = e.reverse ++ '.' :: l.reverse := by
    simp [List.reverse_append]
  rw [h1, dropWhile_no_dot e.reverse l.reverse (fun c hc => he c (by
    exact List.mem_reverse.mp hc))]
  simp

theorem socketPathOf_append_lock (a : String) :
    socketPathOf (a ++ ".lock") = a ++ ".sock" := by
  unfold socketPathOf
  have hd : (a ++ ".lock").data = a.data ++ '.' :: ['l', 'o', 'c', 'k'] :=
    String.data_append a ".lock"
  rw [hd, rpartBefore_append_dot a.data ['l', 'o', 'c', 'k'] (by decide),
    string_mk_data]

theorem isAbs_lock_sock (s : String) :
    isAbs (s ++ ".lock") = isAbs (s ++ ".sock") := by
  unfold isAbs
  rw [String.data_append, String.data_append]
  cases s.data <;> rfl

theorem socketPathOf_pathJoin (loc s : String) :
    socketPathOf (pathJoin loc (s ++ ".lock")) = pathJoin loc (s ++ ".sock") := by
  unfold pathJoin
  rw [isAbs_lock_sock]
  split_ifs
  · exact socketPathOf_append_lock s
  · exact socketPathOf_append_lock s
  · rw [← String.append_assoc, socketPathOf_append_lock, String.append_assoc]
  · rw [← String.append_assoc, socketPathOf_append_lock, String.append_assoc]

/-! Claim theorems for names and paths. -/

/-- C8 counterexample: the claim appends `-<group_id>` exactly when a
group id is given, but the source guards the append with Python
truthiness (`if group_id:` at utils.py:473), so the empty-string group id
is given yet not appended. -/
theorem c8_counterexample :
    instanceName "kitty" 1000 (some "") = "kitty-ipc-1000" ∧
    instanceName "kitty" 1000 (some "") ≠ "kitty-ipc-1000" ++ "-" ++ "" := by
  decide

/-- C8 (amended): the canonical coordination name is the application
name, `-ipc-`, and the effective user id, with `-<group_id>` appended
exactly when a non-empty group id is given (an empty group id behaves
like no group id, because the source tests Python truthiness), and the
abstract socket address is a NUL byte followed by that name. -/
theorem c8_name_amended (app : String) (euid : Nat) (gid : Option String) :
    instanceName app euid none = app ++ "-ipc-" ++ toString euid ∧
    (∀ g : String, g ≠ "" →
      instanceName app euid (some g) = app ++ "-ipc-" ++ toString euid ++ "-" ++ g) ∧
    instanceName app euid (some "") = app ++ "-ipc-" ++ toString euid ∧
    abstractAddr (instanceName app euid gid) =
      String.mk ('\x00' :: (instanceName app euid gid).data) := by
  refine ⟨rfl, fun g hg => ?_, rfl, rfl⟩
  have hne : g.isEmpty = false := by
    cases hemp : g.isEmpty
    · rfl
    · exact absurd ((String.isEmpty_iff g).mp hemp) hg
  simp [instanceName, pyTruthyStr, hne]

/-- C8 witness: the amended theorem applied at the concrete group id
`grp`, where the suffix is appended. -/
theorem c8_name_amended_witness :
    instanceName "kitty" 1000 (some "grp") =
      "kitty" ++ "-ipc-" ++ toString 1000 ++ "-" ++ "grp" ∧
    instanceName "kitty" 1000 (some "grp") = "kitty-ipc-1000-grp" :=
  ⟨(c8_name_amended "kitty" 1000 (some "grp")).2.1 "grp" (by decide), by decide⟩

/-- C9: for every candidate directory, the generated lockfile path is the
directory joined with the filename `[.]<name>.lock`, the leading dot
present exactly when the directory is the home directory, and the socket
path derived from it at utils.py:437 (`rpartition('.')[0] + '.sock'`) is
the same filename with `.lock` replaced by `.sock` in the same
directory. -/
theorem c9_lock_sock_paths (home name loc : String) (dirs : List String)
    (hmem : loc ∈ dirs) :
    pathJoin loc (socketFilename home loc name ".lock") ∈
      unix_socket_paths home dirs name ".lock" ∧
    socketFilename home loc name ".lock" =
      (if loc = home then "." else "") ++ name ++ ".lock" ∧
    (loc = home → socketFilename home loc name ".lock" = "." ++ name ++ ".lock") ∧
    (loc ≠ home → socketFilename home loc name ".lock" = name ++ ".lock") ∧
    socketPathOf (pathJoin loc (socketFilename home loc name ".lock")) =
      pathJoin loc (socketFilename home loc name ".sock") := by
  refine ⟨?_, rfl, ?_, ?_, ?_⟩
  · exact List.mem_map_of_mem _ hmem
  · intro h
    simp [socketFilename, h]
  · intro h
    simp [socketFilename, h]
  · exact socketPathOf_pathJoin loc ((if loc = home then "." else "") ++ name)

/-- C9 witness: the theorem applied at the concrete directory `/tmp`
(not the home directory), plus the concrete value of both paths. -/
theorem c9_lock_sock_paths_witness :
    (socketPathOf (pathJoin "/tmp" (socketFilename "/home/u" "/tmp" "kitty-ipc-1000" ".lock")) =
      pathJoin "/tmp" (socketFilename "/home/u" "/tmp" "kitty-ipc-1000" ".sock")) ∧
    pathJoin "/tmp" (socketFilename "/home/u" "/tmp" "kitty-ipc-1000" ".lock") =
      "/tmp/kitty-ipc-1000.lock" ∧
    socketPathOf "/tmp/kitty-ipc-1000.lock" = "/tmp/kitty-ipc-1000.sock" :=
  ⟨(c9_lock_sock_paths "/home/u" "kitty-ipc-1000" "/tmp" ["/tmp", "/home/u"]
      (by decide)).2.2.2.2, by decide, by decide⟩

/-! Reachability lemmas for the two-process race. -/

theorem reachable_init : ∀ b : Bool, initConfig b ∈ reachable := by
  decide

theorem reachable_closed : ∀ c ∈ reachable, ∀ m : Bool, stepConfig c m ∈ reachable := by
  decide

theorem reachable_safe :
    ∀ c ∈ reachable,
      ¬(c.p1.pc = .server ∧ c.p2.pc = .server) ∧
      ¬(clientRole c.p1.pc = true ∧ clientRole c.p2.pc = true) ∧
      ((doneOK c.p1.pc = true ∧ doneOK c.p2.pc = true) →
        ((c.p1.pc = .server ∧ c.p2.pc = .client) ∨
          (c.p1.pc = .client ∧ c.p2.pc = .server))) := by
  decide

theorem runSched_reachable (sched : List Bool) :
    ∀ c ∈ reachable, runSched c sched ∈ reachable := by
  induction sched with
  | nil => intro c hc; exact hc
  | cons m ms ih =>
    intro c hc
    exact ih (stepConfig c m) (reachable_closed c hc m)

/-! Claim theorems for the single-instance protocol. -/

/-- C1 counterexample: the claim says that for every interleaving of the
two processes' bind/lock attempts, one ends in the Server role and the
other in the Client role.  Under the schedule in which process 1 binds
the abstract address and process 2 then fails its bind with EADDRINUSE
and connects before process 1 has called `listen()`, process 2's
`s.connect(addr)` (utils.py:485) raises ECONNREFUSED, which
`SingleInstance.__call__` does not handle: process 2 ends in neither
role, the error propagating to its caller. -/
theorem c1_counterexample :
    (runSched (initConfig true) [false, true, true, false]).p1.pc = .server ∧
    (runSched (initConfig true) [false, true, true, false]).p2.pc =
      .err .econnrefused ∧
    clientRole (runSched (initConfig true) [false, true, true, false]).p2.pc =
      false := by
  decide

/-- C1 (amended): for every interleaving of two processes calling the
coordination entry point with the same name (on a platform with or
without abstract-namespace support, starting from a fresh name), never do
both end up Servers and never do both end up Clients; and whenever both
calls return normally, exactly one is the Server and the other the
Client.  (The loser's connect can instead raise — see the
counterexample — so the original unconditional "one Server and one
Client" does not hold.) -/
theorem c1_amended (absSup : Bool) (sched : List Bool) :
    ¬((runSched (initConfig absSup) sched).p1.pc = .server ∧
      (runSched (initConfig absSup) sched).p2.pc = .server) ∧
    ¬(clientRole (runSched (initConfig absSup) sched).p1.pc = true ∧
      clientRole (runSched (initConfig absSup) sched).p2.pc = true) ∧
    ((doneOK (runSched (initConfig absSup) sched).p1.pc = true ∧
      doneOK (runSched (initConfig absSup) sched).p2.pc = true) →
      (((runSched (initConfig absSup) sched).p1.pc = .server ∧
        (runSched (initConfig absSup) sched).p2.pc = .client) ∨
       ((runSched (initConfig absSup) sched).p1.pc = .client ∧
        (runSched (initConfig absSup) sched).p2.pc = .server))) :=
  reachable_safe (runSched (initConfig absSup) sched)
    (runSched_reachable sched (initConfig absSup) (reachable_init absSup))

/-- C2 counterexample: the claim says the process that finds the lock
held becomes Client and does not create, truncate, or otherwise modify
the lockfile.  But `single_instance_unix` opens the lockfile with
`O_CREAT | O_WRONLY | O_TRUNC` (utils.py:438) before attempting the lock,
so a lockfile of length 1 is truncated to length 0 even though the
process then takes the Client path. -/
theorem c2_counterexample :
    (runCall ⟨false, false, false, none, true, some 1, some true, true, true, true,
        none⟩).2.pc = .client ∧
    (runCall ⟨false, false, false, none, true, some 1, some true, true, true, true,
        none⟩).1.lockFile = some 0 ∧
    (runCall ⟨false, false, false, none, true, some 1, some true, true, true, true,
        none⟩).1.lockFile ≠ some 1 := by
  decide

/-- C2 (amended): when the advisory lock is already held by another
process (so `lockf` fails with EAGAIN/EACCES), the caller becomes Client
by connecting to the sibling `.sock` path; it does not acquire the lock
and registers no cleanup — but it does open the lockfile with
`O_CREAT | O_WRONLY | O_TRUNC` first, creating it if absent and
truncating it to length zero.  Stated over every kernel state in which
the other process holds the lock and its socket is bound and listening. -/
theorem c2_amended (ab al : Bool) (lf : Option Nat) (fb : Option Errno) :
    runCall ⟨false, ab, al, none, true, lf, some true, true, true, true, fb⟩ =
      (⟨false, ab, al, none, true, some 0, some true, true, true, true, fb⟩,
        ⟨.client, true, false⟩) :=
  rfl

/-- C6: the abstract-namespace bind attempt has exactly the handled
outcomes of utils.py:479-493.  (1) On a fresh supported address the
caller becomes Server: the abstract address stays bound and listening for
the life of the process, the socket is retained in `self.socket` and a
close-on-exit is registered.  (2) When the address is already bound by a
live (listening) Server, bind fails EADDRINUSE and the caller becomes
Client with a connected, retained socket.  (3) When the platform lacks
the abstract namespace (bind raises ENOENT), the call falls through to
the filesystem protocol: the rest of the run is exactly the run of
`single_instance_unix` from its entry.  (4) Any other bind errno
propagates to the caller.  All irrelevant kernel-state fields are
universally quantified. -/
theorem c6_abstract_bind_outcomes (al d : Bool) (lf : Option Nat)
    (lh : Option Bool) (sf sb sl : Bool) (fb : Option Errno) :
    ((runCall ⟨true, false, al, none, d, lf, lh, sf, sb, sl, fb⟩).2 =
        ⟨.server, true, true⟩ ∧
      (runCall ⟨true, false, al, none, d, lf, lh, sf, sb, sl, fb⟩).1.absBound = true ∧
      (runCall ⟨true, false, al, none, d, lf, lh, sf, sb, sl, fb⟩).1.absListening
        = true) ∧
    ((runCall ⟨true, true, true, none, d, lf, lh, sf, sb, sl, fb⟩).2 =
      ⟨.client, true, false⟩) ∧
    (runSteps false 12
        (⟨false, false, al, none, d, lf, lh, sf, sb, sl, fb⟩, ⟨.start, false, false⟩) =
      runSteps false 11
        (⟨false, false, al, none, d, lf, lh, sf, sb, sl, fb⟩,
          ⟨.fsStart, false, false⟩)) ∧
    (∀ e : Errno, e ≠ .enoent → e ≠ .eaddrinuse →
      (runCall ⟨true, false, al, some e, d, lf, lh, sf, sb, sl, fb⟩).2 =
        ⟨.err e, false, false⟩) := by
  refine ⟨⟨rfl, rfl, rfl⟩, rfl, rfl, fun e h1 h2 => ?_⟩
  cases e
  · rfl
  · rfl
  · exact absurd rfl h2
  · rfl
  · exact absurd rfl h1
  · rfl
  · rfl

/-- C6 witness: outcome (4) of `c6_abstract_bind_outcomes` at the
concrete errno EPERM, together with outcome (1) at the all-fresh state. -/
theorem c6_abstract_bind_outcomes_witness :
    (runCall ⟨true, false, false, some .eperm, true, none, none, false, false, false,
        none⟩).2 = ⟨.err .eperm, false, false⟩ ∧
    (runCall (cleanOS true)).2 = ⟨.server, true, true⟩ :=
  ⟨(c6_abstract_bind_outcomes false true none none false false false none).2.2.2
      .eperm (by decide) (by decide),
    ((c6_abstract_bind_outcomes false true none none false false false none).1).1⟩

/-- C7: when the filesystem Server holds the advisory lock but the first
`s.bind(socket_path)` fails with EADDRINUSE because a stale socket file
occupies the path, the Server unlinks the path and binds again
(utils.py:453-455), ending with a bound, listening socket at the path and
the Server role; and any bind errno other than
EADDRINUSE/EEXIST propagates to the caller instead of being retried
(utils.py:457). -/
theorem c7_stale_socket_rebind (al sl : Bool) (lf : Option Nat) :
    ((runCall ⟨false, false, al, none, true, lf, none, true, false, sl, none⟩).2 =
        ⟨.server, true, true⟩ ∧
      (runCall ⟨false, false, al, none, true, lf, none, true, false, sl,
          none⟩).1.sockFileExists = true ∧
      (runCall ⟨false, false, al, none, true, lf, none, true, false, sl,
          none⟩).1.sockBound = true ∧
      (runCall ⟨false, false, al, none, true, lf, none, true, false, sl,
          none⟩).1.sockListening = true) ∧
    (∀ e : Errno, e ≠ .eaddrinuse → e ≠ .eexist →
      ∀ sf sb : Bool,
        (runCall ⟨false, false, al, none, true, lf, none, sf, sb, sl, some e⟩).2 =
          ⟨.err e, false, false⟩) := by
  refine ⟨⟨rfl, rfl, rfl, rfl⟩, fun e h1 h2 sf sb => ?_⟩
  cases e
  · rfl
  · rfl
  · exact absurd rfl h1
  · exact absurd rfl h2
  · rfl
  · rfl
  · rfl

/-- C7 witness: the error branch of `c7_stale_socket_rebind` at the
concrete errno EPERM, and the stale-rebind branch at a concrete state. -/
theorem c7_stale_socket_rebind_witness :
    (runCall ⟨false, false, false, none, true, none, none, true, true, false,
        some .eperm⟩).2 = ⟨.err .eperm, false, false⟩ ∧
    (runCall ⟨false, false, false, none, true, none, none, true, false, false,
        none⟩).2 = ⟨.server, true, true⟩ :=
  ⟨(c7_stale_socket_rebind false false none).2 .eperm (by decide) (by decide)
      true true,
    ((c7_stale_socket_rebind false false none).1).1⟩

/-- C10: when no candidate directory is accessible the loop of
`single_instance_unix` never runs: the call returns False (the process
takes the Client role) without connecting to anything, the process-wide
socket attribute stays unset, no cleanup is registered, the whole kernel
state (in particular the lockfile) is untouched, and no error is raised.
Stated over every kernel state with `dirsAccessible = false` on a
platform without abstract-namespace support. -/
theorem c10_no_accessible_dirs (ab al : Bool) (lf : Option Nat)
    (lh : Option Bool) (sf sb sl : Bool) (fb : Option Errno) :
    runCall ⟨false, ab, al, none, false, lf, lh, sf, sb, sl, fb⟩ =
      (⟨false, ab, al, none, false, lf, lh, sf, sb, sl, fb⟩,
        ⟨.clientNone, false, false⟩) :=
  rfl

/-- C1 witness: the amended theorem applied at the schedule in which
process 1 completes before process 2 races: both return normally and the
roles are exactly one Server and one Client. -/
theorem c1_amended_witness :
    ((runSched (initConfig true) [false, false, true, true]).p1.pc = .server ∧
      (runSched (initConfig true) [false, false, true, true]).p2.pc = .client) ∨
    ((runSched (initConfig true) [false, false, true, true]).p1.pc = .client ∧
      (runSched (initConfig true) [false, false, true, true]).p2.pc = .server) :=
  (c1_amended true [false, false, true, true]).2.2 ⟨by decide, by decide⟩
